import Mathlib

/-
Verification of the session/authentication context provider in
src/src/contexts/AuthContext.tsx.

The module is a state-synchronization wrapper around an external auth
backend (Supabase). We embed it shallowly: the three pieces of React
state (user, userProfile, loading) become a record `AuthState`; every
operation becomes a pure function from the current state plus the
outcome of the external backend calls it performs to the next state,
together with a trace of the observable effects it issues (state
setters, backend calls, console output) and, for the async operations
that can reject, an `Except` result mirroring resolve/throw of the
returned promise.
-/

namespace AuthContext

/-- The authenticated identity record supplied by the auth backend
(the SupabaseUser referenced by the source); the fields the module
constructs for its mock user (id, email, timestamps). Timestamps are
kept as their ISO strings. -/
structure Identity where
  id : String
  email : String
  created_at : String
  updated_at : String
deriving Repr, DecidableEq

/-- Modelled from the spec: the application `User` row shape. The file
src/types that declares it is not in the repository snapshot; spec
section 3 lists the attributes: id, tenant id, email, role (enum),
display name, preferred language (enum), created/updated timestamps.
Role and language are kept as the strings carrying the enum literals
used in the source ("senior_lawyer", "en"). -/
structure Profile where
  id : String
  tenant_id : String
  email : String
  role : String
  name : String
  language : String
  created_at : String
  updated_at : String
deriving Repr, DecidableEq

/-- A `Partial<User>` value: each key of the row shape is either absent
(`none`) or present with a value. -/
structure ProfileUpdate where
  id : Option String := none
  tenant_id : Option String := none
  email : Option String := none
  role : Option String := none
  name : Option String := none
  language : Option String := none
  created_at : Option String := none
  updated_at : Option String := none
deriving Repr, DecidableEq

/-- The update has at least one key absent, i.e. its key set is a
proper subset of the (always complete) key set of a Profile row. -/
def ProfileUpdate.isProper (U : ProfileUpdate) : Bool :=
  U.id.isNone || U.tenant_id.isNone || U.email.isNone || U.role.isNone ||
  U.name.isNone || U.language.isNone || U.created_at.isNone || U.updated_at.isNone

/-- The TS object spread `\x7b ...prev, ...updates \x7d` restricted to
the row shape: every key present in `updates` overwrites, every key
absent from `updates` keeps the value of `prev`. -/
def spreadUpdate (prev : Profile) (updates : ProfileUpdate) : Profile where
  id := updates.id.getD prev.id
  tenant_id := updates.tenant_id.getD prev.tenant_id
  email := updates.email.getD prev.email
  role := updates.role.getD prev.role
  name := updates.name.getD prev.name
  language := updates.language.getD prev.language
  created_at := updates.created_at.getD prev.created_at
  updated_at := updates.updated_at.getD prev.updated_at

/-- Helper used to phrase the merge law the way the spec words it. -/
def overwriteKey (old : String) (upd : Option String) : String :=
  match upd with
  | some v => v
  | none => old

/-- The merge law stated from the words of the spec, independently of
the source: "the resulting cached profile equals P with each key in U
overwritten by the value of U and all other keys unchanged". -/
def specMergeProfile (P : Profile) (U : ProfileUpdate) : Profile where
  id := overwriteKey P.id U.id
  tenant_id := overwriteKey P.tenant_id U.tenant_id
  email := overwriteKey P.email U.email
  role := overwriteKey P.role U.role
  name := overwriteKey P.name U.name
  language := overwriteKey P.language U.language
  created_at := overwriteKey P.created_at U.created_at
  updated_at := overwriteKey P.updated_at U.updated_at

/-- The three pieces of React state owned by the provider. -/
structure AuthState where
  user : Option Identity
  userProfile : Option Profile
  loading : Bool
deriving Repr, DecidableEq

/-- Observable effects an operation issues, in order: the three state
setters, the backend calls, and console output. -/
inductive Eff where
  | setUser (u : Option Identity)
  | setUserProfile (p : Option Profile)
  | setLoading (b : Bool)
  | supabaseSignInCall (email password : String)
  | supabaseSignOutCall
  | usersSelect (id : String)
  | usersUpdate (id : String)
  | consoleError
  | consoleLog
deriving Repr, DecidableEq

deriving instance DecidableEq for Except

/-- Outcome of an async operation exposed to callers: its effect trace,
the state it leaves behind, and promise resolution (`ok`) or rejection
(`error` with the message of the thrown Error). -/
structure OpResult where
  trace : List Eff
  state : AuthState
  result : Except String Unit
deriving Repr, DecidableEq

/-- Outcome of the internal fetchUserProfile: it has no error channel
at all (every failure is caught inside), so only a trace and a state. -/
structure FetchOutcome where
  trace : List Eff
  state : AuthState
deriving Repr, DecidableEq

def demoEmail : String := "demo@chamber.law"

def demoPassword : String := "demo123456"

def invalidCredentialsMessage : String :=
  "Invalid credentials. Please try demo@chamber.law / demo123456"

def noUserMessage : String := "No user logged in"

/-- The mock user built in the demo branch of signIn; `now` stands for
new Date().toISOString() at the time of the call. -/
def mockUser (now : String) : Identity where
  id := "demo-user-id"
  email := "demo@chamber.law"
  created_at := now
  updated_at := now

/-- The mock profile built in the demo branch of signIn. -/
def mockProfile (now : String) : Profile where
  id := "demo-user-id"
  tenant_id := "demo-tenant"
  email := "demo@chamber.law"
  role := "senior_lawyer"
  name := "Demo User"
  language := "en"
  created_at := now
  updated_at := now

/-- fetchUserProfile (source lines 57-72): queries the users row for
`userId` (outcome `res`); on success caches the row as the profile; on
failure logs the error and leaves the profile unchanged; in both cases
the finally block clears the loading flag. Errors never escape. -/
def fetchUserProfile (s : AuthState) (userId : String)
    (res : Except String Profile) : FetchOutcome :=
  match res with
  | .ok data =>
      { trace := [.usersSelect userId, .setUserProfile (some data), .setLoading false]
        state := { s with userProfile := some data, loading := false } }
  | .error _ =>
      { trace := [.usersSelect userId, .consoleError, .setLoading false]
        state := { s with loading := false } }

/-- The semantics of `from("users").select().eq("id", userId).single()`
over a table of rows: succeeds exactly when one row matches the id
filter, and then returns that row. -/
def queryUsersTable (table : List Profile) (userId : String) :
    Except String Profile :=
  match table.filter (fun r => r.id == userId) with
  | [r] => .ok r
  | [] => .error "PGRST116: no rows returned"
  | _ => .error "more than one row returned"

/-- signIn (source lines 74-112): the exact demo credential pair sets
the mock user and profile synchronously and returns without any
backend call; every other pair delegates to the password sign-in of
the backend (`backend` is its outcome), and a backend failure is
re-thrown as the fixed generic message. A backend success changes no
local state here (the subscription handler does that). -/
def signIn (s : AuthState) (email password : String)
    (backend : Except String Unit) (now : String) : OpResult :=
  if email = demoEmail ∧ password = demoPassword then
    { trace := [.setUser (some (mockUser now)),
                .setUserProfile (some (mockProfile now))]
      state := { s with user := some (mockUser now),
                        userProfile := some (mockProfile now) }
      result := .ok () }
  else
    match backend with
    | .ok _ =>
        { trace := [.supabaseSignInCall email password]
          state := s
          result := .ok () }
    | .error _ =>
        { trace := [.supabaseSignInCall email password]
          state := s
          result := .error invalidCredentialsMessage }

/-- signOut (source lines 114-126): first unconditionally clears user
and profile, then calls the backend sign-out; a failure of that call is
caught and only logged, so the operation always resolves. -/
def signOut (s : AuthState) (backend : Except String Unit) : OpResult :=
  let cleared : AuthState := { s with user := none, userProfile := none }
  match backend with
  | .ok _ =>
      { trace := [.setUser none, .setUserProfile none, .supabaseSignOutCall]
        state := cleared
        result := .ok () }
  | .error _ =>
      { trace := [.setUser none, .setUserProfile none, .supabaseSignOutCall,
                  .consoleLog]
        state := cleared
        result := .ok () }

/-- updateProfile (source lines 128-139): throws when no user is set;
otherwise writes the partial update to the remote row keyed by the
user id (outcome `remote`), re-throwing a remote error unchanged, and
on success merges the update into the cached profile when one exists
(and leaves it null when none does). No re-fetch happens. -/
def updateProfile (s : AuthState) (updates : ProfileUpdate)
    (remote : Except String Unit) : OpResult :=
  match s.user with
  | none => { trace := [], state := s, result := .error noUserMessage }
  | some u =>
    match remote with
    | .error e =>
        { trace := [.usersUpdate u.id], state := s, result := .error e }
    | .ok _ =>
        let newProfile := s.userProfile.map (fun p => spreadUpdate p updates)
        { trace := [.usersUpdate u.id, .setUserProfile newProfile]
          state := { s with userProfile := newProfile }
          result := .ok () }

/-- The state React mounts the provider with: no user, no profile,
loading true. -/
def initialState : AuthState where
  user := none
  userProfile := none
  loading := true

/-- The getSession continuation run on mount (source lines 32-39),
starting from the mount state: seeds the user from the session, then
either fetches the profile (outcome `res`) or clears loading. -/
def initSession (session : Option Identity)
    (res : Except String Profile) : AuthState :=
  let s1 : AuthState := { initialState with user := session }
  match session with
  | some u => (fetchUserProfile s1 u.id res).state
  | none => { s1 with loading := false }

/-- The onAuthStateChange handler (source lines 42-52): seeds the user
from the session of the notification, then either re-fetches the
profile or clears profile and loading. -/
def onAuthStateChange (s : AuthState) (session : Option Identity)
    (res : Except String Profile) : AuthState :=
  let s1 : AuthState := { s with user := session }
  match session with
  | some u => (fetchUserProfile s1 u.id res).state
  | none => { s1 with userProfile := none, loading := false }

/-- Initialization against a concrete users table. -/
def initSessionT (session : Option Identity) (table : List Profile) :
    AuthState :=
  initSession session
    (match session with
     | some u => queryUsersTable table u.id
     | none => .error "unused")

/-- The auth-change handler against a concrete users table. -/
def onAuthStateChangeT (s : AuthState) (session : Option Identity)
    (table : List Profile) : AuthState :=
  onAuthStateChange s session
    (match session with
     | some u => queryUsersTable table u.id
     | none => .error "unused")

/-- The spec invariant: whenever both user and profile are present,
profile.id equals user.id. -/
def authInvB (s : AuthState) : Bool :=
  match s.user, s.userProfile with
  | some u, some p => p.id == u.id
  | _, _ => true

/-- Substring containment on char lists. -/
def listContainsSub (s pat : List Char) : Bool :=
  (List.range (s.length + 1)).any (fun i => pat.isPrefixOf (s.drop i))

/-- `strContains s pat` holds when `pat` occurs contiguously in `s`. -/
def strContains (s pat : String) : Bool :=
  listContainsSub s.data pat.data

/-! ## Helper lemmas -/

/-- Overwriting a key with an absent update keeps the old value, with a
present update takes the new one; this is exactly `Option.getD`. -/
theorem overwriteKey_eq_getD (old : String) (upd : Option String) :
    overwriteKey old upd = upd.getD old := by
  cases upd <;> rfl

/-- The merge the source performs (TS spread) coincides with the merge
law as the spec words it. -/
theorem spreadUpdate_eq_specMerge (P : Profile) (U : ProfileUpdate) :
    spreadUpdate P U = specMergeProfile P U := by
  simp [spreadUpdate, specMergeProfile, overwriteKey_eq_getD]

/-- A successful single-row query keyed on `id` returns a row whose id
field is the queried id. -/
theorem queryUsersTable_ok_id (table : List Profile) (i : String)
    (p : Profile) (h : queryUsersTable table i = .ok p) : p.id = i := by
  unfold queryUsersTable at h
  rcases hf : table.filter (fun r => r.id == i) with _ | ⟨r, _ | ⟨r2, rest2⟩⟩ <;>
    rw [hf] at h
  · cases h
  · have hr : r ∈ table.filter (fun r => r.id == i) := by
      rw [hf]; exact List.mem_singleton_self r
    have hid : (r.id == i) = true := (List.mem_filter.mp hr).2
    have hrp : r = p := by
      injection h
    subst hrp
    exact eq_of_beq hid
  · cases h

/-! ## Claim theorems -/

/-- Claim C1: for the exact credential pair demo@chamber.law /
demo123456, signIn performs no backend call and synchronously sets a
non-empty identity with id "demo-user-id" and a profile with role
"senior_lawyer" and language "en", independently of the backend
outcome; for every other credential pair the demo bypass is not taken
(the backend sign-in is called). -/
theorem signIn_demo_mode (s : AuthState) (b b' : Except String Unit)
    (now email password : String)
    (hne : ¬ (email = demoEmail ∧ password = demoPassword)) :
    ((signIn s demoEmail demoPassword b now).state.user = some (mockUser now)
      ∧ (mockUser now).id = "demo-user-id"
      ∧ (signIn s demoEmail demoPassword b now).state.userProfile
          = some (mockProfile now)
      ∧ (mockProfile now).role = "senior_lawyer"
      ∧ (mockProfile now).language = "en"
      ∧ (signIn s demoEmail demoPassword b now).result = .ok ()
      ∧ signIn s demoEmail demoPassword b now
          = signIn s demoEmail demoPassword b' now
      ∧ (∀ ee pp, Eff.supabaseSignInCall ee pp ∉
          (signIn s demoEmail demoPassword b now).trace))
    ∧ Eff.supabaseSignInCall email password ∈
        (signIn s email password b now).trace := by
  constructor
  · simp [signIn, mockUser, mockProfile]
  · simp only [signIn]
    rw [if_neg hne]
    cases b <;> simp

-- Witness for C1 at a concrete state, backend outcome and clock.
theorem signIn_demo_mode_witness :
    (signIn initialState demoEmail demoPassword (.ok ()) "t").state.user
      = some (mockUser "t") :=
  ((signIn_demo_mode initialState (.ok ()) (.error "backend down") "t"
      "user@x.y" "pw" (by decide)).1).1

/-- Claim C2: with an identity and a cached profile P present, a
successful remote write makes the cached profile the shallow merge of
the partial update U into P exactly as the spec words it (each key in U
overwritten, all other keys unchanged), for every U whose key set is a
proper subset of the keys of P; identity and loading are untouched and
no re-fetch of the row happens. -/
theorem updateProfile_merge_law (s : AuthState) (u : Identity) (P : Profile)
    (U : ProfileUpdate) (hu : s.user = some u) (hp : s.userProfile = some P)
    (hproper : U.isProper = true) :
    (updateProfile s U (.ok ())).state.userProfile
        = some (specMergeProfile P U)
    ∧ (updateProfile s U (.ok ())).state.user = s.user
    ∧ (updateProfile s U (.ok ())).state.loading = s.loading
    ∧ (updateProfile s U (.ok ())).result = .ok ()
    ∧ (∀ i, Eff.usersSelect i ∉ (updateProfile s U (.ok ())).trace) := by
  simp [updateProfile, hu, hp, spreadUpdate_eq_specMerge]

-- Witness for C2: updating only the display name of the demo profile.
theorem updateProfile_merge_law_witness :
    (updateProfile
        { user := some (mockUser "t"), userProfile := some (mockProfile "t"),
          loading := false }
        { name := some "New Name" } (.ok ())).state.userProfile
      = some (specMergeProfile (mockProfile "t")
          { name := some "New Name" }) :=
  (updateProfile_merge_law
      { user := some (mockUser "t"), userProfile := some (mockProfile "t"),
        loading := false }
      (mockUser "t") (mockProfile "t") { name := some "New Name" }
      rfl rfl (by decide)).1

/-- Claim C3: signOut first clears the identity and the profile (the
first two effects precede the backend call), the backend outcome is
swallowed, and after it resolves identity and profile are empty and the
result is success for every starting state and backend outcome. -/
theorem signOut_clears_first (s : AuthState) (b : Except String Unit) :
    (signOut s b).state.user = none
    ∧ (signOut s b).state.userProfile = none
    ∧ (signOut s b).state.loading = s.loading
    ∧ (signOut s b).result = .ok ()
    ∧ (signOut s b).trace.take 3
        = [.setUser none, .setUserProfile none, .supabaseSignOutCall] := by
  cases b <;> simp [signOut]

/-- Claim C4: for every non-demo credential pair rejected by the
backend, signIn rejects with the single fixed generic message, which
contains both demo credentials; the message does not depend on the raw
backend error text (so any text not occurring in the fixed constant
cannot occur in the message), and the state is unchanged. -/
theorem signIn_rejected_generic_message (s : AuthState)
    (email password err now : String)
    (hne : ¬ (email = demoEmail ∧ password = demoPassword)) :
    (signIn s email password (.error err) now).result
        = .error invalidCredentialsMessage
    ∧ strContains invalidCredentialsMessage demoEmail = true
    ∧ strContains invalidCredentialsMessage demoPassword = true
    ∧ (∀ err', signIn s email password (.error err') now
        = signIn s email password (.error err) now)
    ∧ (strContains invalidCredentialsMessage err = false →
        ∀ m, (signIn s email password (.error err) now).result = .error m →
          strContains m err = false)
    ∧ (signIn s email password (.error err) now).state = s := by
  have h1 : ∀ e : String, signIn s email password (.error e) now
      = { trace := [.supabaseSignInCall email password], state := s,
          result := .error invalidCredentialsMessage } := by
    intro e
    simp only [signIn]
    rw [if_neg hne]
  refine ⟨by rw [h1], by decide, by decide, fun e' => by rw [h1, h1], ?_, by rw [h1]⟩
  intro hno m hm
  rw [h1] at hm
  simp only [Except.error.injEq] at hm
  rw [← hm]
  exact hno

-- Witness for C4 at a concrete rejected credential pair.
theorem signIn_rejected_generic_message_witness :
    (signIn initialState "user@x.y" "pw" (.error "500 internal") "t").result
      = .error invalidCredentialsMessage :=
  (signIn_rejected_generic_message initialState "user@x.y" "pw"
    "500 internal" "t" (by decide)).1

/-- Claim C5: with no identity set, updateProfile rejects with the
"No user logged in" message, issues no effect at all (in particular no
remote write), and leaves the state unchanged. -/
theorem updateProfile_requires_user (s : AuthState) (U : ProfileUpdate)
    (r : Except String Unit) (h : s.user = none) :
    (updateProfile s U r).result = .error noUserMessage
    ∧ (updateProfile s U r).state = s
    ∧ (updateProfile s U r).trace = [] := by
  simp [updateProfile, h]

-- Witness for C5 at the mount state, which has no user.
theorem updateProfile_requires_user_witness :
    (updateProfile initialState { name := some "x" } (.ok ())).result
      = .error noUserMessage :=
  (updateProfile_requires_user initialState { name := some "x" } (.ok ())
    rfl).1

/-- Claim C6: when the remote write fails, updateProfile re-raises that
backend error unchanged, mutates no local state, and its only effect is
the remote update call itself. -/
theorem updateProfile_remote_error_propagates (s : AuthState)
    (U : ProfileUpdate) (u : Identity) (e : String) (h : s.user = some u) :
    (updateProfile s U (.error e)).result = .error e
    ∧ (updateProfile s U (.error e)).state = s
    ∧ (updateProfile s U (.error e)).trace = [.usersUpdate u.id] := by
  simp [updateProfile, h]

-- Witness for C6 with a concrete backend failure.
theorem updateProfile_remote_error_propagates_witness :
    (updateProfile
        { user := some (mockUser "t"), userProfile := some (mockProfile "t"),
          loading := false }
        { name := some "x" } (.error "db down")).result = .error "db down" :=
  (updateProfile_remote_error_propagates
      { user := some (mockUser "t"), userProfile := some (mockProfile "t"),
        loading := false }
      { name := some "x" } (mockUser "t") "db down" rfl).1

/-- Claim C7: for every identity id, a failed profile fetch logs the
error, leaves the cached profile (and the identity) unchanged, and has
no error channel to propagate through; and in every case, success or
failure, the loading flag is cleared on completion. -/
theorem fetchUserProfile_failure_and_loading (s : AuthState)
    (userId e : String) (res : Except String Profile) :
    (fetchUserProfile s userId (.error e)).state.userProfile = s.userProfile
    ∧ (fetchUserProfile s userId (.error e)).state.user = s.user
    ∧ Eff.consoleError ∈ (fetchUserProfile s userId (.error e)).trace
    ∧ (fetchUserProfile s userId res).state.loading = false := by
  refine ⟨rfl, rfl, by simp [fetchUserProfile], ?_⟩
  cases res <;> rfl

/-- Claim C8: the provider mounts with loading true, and after the
initialization completes — session present with the profile fetch
succeeding or failing, or no session — loading is false. -/
theorem loading_cleared_after_init (session : Option Identity)
    (res : Except String Profile) :
    initialState.loading = true
    ∧ (initSession session res).loading = false := by
  refine ⟨rfl, ?_⟩
  cases session <;> cases res <;> rfl

/-- Claim C10: with an identity set but no cached profile, a successful
remote write resolves, performs the remote update, and still leaves the
cached profile empty: the merge only applies when a prior profile
exists. -/
theorem updateProfile_skips_absent_profile (s : AuthState)
    (U : ProfileUpdate) (u : Identity)
    (hu : s.user = some u) (hp : s.userProfile = none) :
    (updateProfile s U (.ok ())).result = .ok ()
    ∧ (updateProfile s U (.ok ())).state.userProfile = none
    ∧ Eff.usersUpdate u.id ∈ (updateProfile s U (.ok ())).trace := by
  simp [updateProfile, hu, hp]

-- Witness for C10: user present, profile fetch had failed earlier.
theorem updateProfile_skips_absent_profile_witness :
    (updateProfile
        { user := some (mockUser "t"), userProfile := none, loading := false }
        { name := some "x" } (.ok ())).state.userProfile = none :=
  (updateProfile_skips_absent_profile
      { user := some (mockUser "t"), userProfile := none, loading := false }
      { name := some "x" } (mockUser "t") rfl rfl).2.1

/-- Claim C9, counterexample: the invariant profile.id == user.id is
not preserved by updateProfile. Starting from a state where it holds
(the demo user with the demo profile), a successful updateProfile whose
partial update sets id to a different value leaves user.id at
"demo-user-id" but profile.id at "other-user-id". -/
theorem updateProfile_breaks_id_invariant :
    authInvB { user := some (mockUser "t"),
               userProfile := some (mockProfile "t"), loading := false } = true
    ∧ authInvB (updateProfile
        { user := some (mockUser "t"),
          userProfile := some (mockProfile "t"), loading := false }
        { id := some "other-user-id" } (.ok ())).state = false := by
  decide

/-- Claim C9, amended: the invariant profile.id == user.id (whenever
both are present) is preserved by initialization, by an auth-change
notification whose session is absent or whose profile fetch succeeds,
by signIn, by signOut, and by updateProfile provided the partial update
does not include the id key. (Unguarded, updateProfile with an
id-changing update breaks it, and an auth-change to a new identity
whose profile fetch fails retains the stale profile.) -/
theorem authInv_preserved (s : AuthState) (session : Option Identity)
    (table : List Profile) (U : ProfileUpdate)
    (email password now : String) (b r : Except String Unit)
    (h : authInvB s = true) (hU : U.id = none) :
    authInvB (initSessionT session table) = true
    ∧ (∀ u p, session = some u → queryUsersTable table u.id = .ok p →
        authInvB (onAuthStateChangeT s session table) = true)
    ∧ authInvB (onAuthStateChangeT s none table) = true
    ∧ authInvB (signIn s email password b now).state = true
    ∧ authInvB (signOut s b).state = true
    ∧ authInvB (updateProfile s U r).state = true := by
  refine ⟨?_, ?_, ?_, ?_, ?_, ?_⟩
  · cases session with
    | none => rfl
    | some u =>
      rcases hq : queryUsersTable table u.id with e | p
      · simp [initSessionT, initSession, fetchUserProfile, hq, authInvB,
              initialState]
      · have hid : p.id = u.id := queryUsersTable_ok_id table u.id p hq
        simp [initSessionT, initSession, fetchUserProfile, hq, authInvB, hid,
              initialState]
  · rintro u p rfl hq
    have hid : p.id = u.id := queryUsersTable_ok_id table u.id p hq
    simp [onAuthStateChangeT, onAuthStateChange, fetchUserProfile, hq,
          authInvB, hid]
  · simp [onAuthStateChangeT, onAuthStateChange, authInvB]
  · by_cases hd : email = demoEmail ∧ password = demoPassword
    · rcases hd with ⟨he, hp⟩
      subst he; subst hp
      simp [signIn, authInvB, mockUser, mockProfile]
    · simp only [signIn]
      rw [if_neg hd]
      cases b <;> simpa using h
  · cases b <;> simp [signOut, authInvB]
  · rcases hsu : s.user with _ | u
    · simpa [updateProfile, hsu] using h
    · cases r with
      | error e => simpa [updateProfile, hsu] using h
      | ok _ =>
        rcases hsp : s.userProfile with _ | p
        · simp [updateProfile, hsu, hsp, authInvB]
        · have hpid : (p.id == u.id) = true := by
            have h' := h
            unfold authInvB at h'
            rw [hsu, hsp] at h'
            exact h'
          simp [updateProfile, hsu, hsp, authInvB, spreadUpdate, hU,
                eq_of_beq hpid]

-- Witness for the amended C9 at a concrete state and update.
theorem authInv_preserved_witness :
    authInvB (updateProfile
      { user := some (mockUser "t"), userProfile := some (mockProfile "t"),
        loading := false }
      { name := some "N" } (.ok ())).state = true :=
  (authInv_preserved
    { user := some (mockUser "t"), userProfile := some (mockProfile "t"),
      loading := false }
    none [] { name := some "N" } "e@x.y" "pw" "t" (.ok ()) (.ok ())
    (by decide) rfl).2.2.2.2.2

end AuthContext
